import Mathlib

/-!
Shallow embedding of the mlopt core (src/mlo/problem.py): the problem
representation ProblemData, the solve / certificate-extraction pipeline of
OptimizationProblem, the strategy-based fast re-solve solve_with_strategy,
and the feasibility / optimality metrics.

Modelling conventions.  Machine reals are modelled as rationals, except
where the source takes a Euclidean norm (a square root), which lands in the
real numbers.  Python exceptions are modelled by an explicit error type and
the Except monad; an operation that numpy or Python would abort with an
exception returns the corresponding error.  The backend solver is an
abstract adapter (a function from problem data to a solver result), exactly
as the design treats it.  The modules strategy.py, constants.py and
solvers/* are not part of the sources; the entities they provide (Strategy,
TOL, SOLUTION_PRESENT, the solver-result shape) are modelled from the spec
and marked as such.
-/

deriving instance DecidableEq for Except

/-- Python exception kinds raised by the modelled fragment of the code. -/
inductive PyErr where
  | typeError
  | indexError
  | attributeError
  | assertionError (msg : String)
  | valueError (msg : String)
  deriving DecidableEq

/-- Modelled from the spec: the closed status vocabulary of the solver
adapter contract (solvers/statuses.py is absent from the sources; spec
section 6 lists at least SOLVED, INFEASIBLE, UNBOUNDED, ERROR). -/
inductive Status where
  | solved
  | infeasible
  | unbounded
  | errored
  deriving DecidableEq

/-- Printable form of a status, used in the error message of solve. -/
def statusStr : Status → String
  | .solved => "solved"
  | .infeasible => "infeasible"
  | .unbounded => "unbounded"
  | .errored => "errored"

/-- Modelled from the spec: the distinguished solution-present subset of
statuses (SOLUTION_PRESENT in solvers/statuses.py, absent from sources). -/
def SOLUTION_PRESENT : List Status := [Status.solved]

/-- Message of the ValueError raised by solve on a failed status
(problem.py line 128). -/
def msgNotSolved (st : Status) : String :=
  "Problem not solved. Status " ++ statusStr st

/-- Message of the ValueError raised by np.vstack / spa.vstack on
incompatible dimensions. -/
def msgVstack : String :=
  "all the input array dimensions must match exactly"

/-- Message of the ValueError raised by numpy elementwise arithmetic on
arrays whose shapes cannot be combined. -/
def msgBroadcast : String :=
  "operands could not be broadcast together"

/-- Message of the ValueError raised by np.concatenate on arrays of
different dimensionality. -/
def msgConcat : String :=
  "all the input arrays must have same number of dimensions"

/-- Message of the ValueError raised by np.max / np.min on an empty array. -/
def msgEmptyReduce : String :=
  "zero-size array to reduction operation"

/-- Message of the ValueError raised when array shapes disagree in a dot
product or comparison. -/
def msgShapes : String :=
  "shapes not aligned"

/-- Message of the AssertionError of the first assert in
solve_with_strategy (problem.py line 223). -/
def msgAssertMax : String :=
  "np max of int vars exceeds len of l"

/-- Message of the AssertionError of the second assert in
solve_with_strategy (problem.py line 224). -/
def msgAssertMin : String :=
  "np min of int vars below zero"

/-- A numpy array value that is either one-dimensional or two-dimensional.
The bound fields of ProblemData are one-dimensional for user-built
instances, but solve_with_strategy (problem.py line 249) stores the result
of np.vstack, a two-dimensional array, in the same fields, so the field
type must admit both. -/
inductive Arr where
  | v (xs : List ℚ)
  | m (xss : List (List ℚ))
  deriving DecidableEq

/-- Length of a numpy array along its first axis (Python len). -/
def Arr.len : Arr → ℕ
  | .v xs => xs.length
  | .m xss => xss.length

/-- A scipy sparse matrix: its rows together with an explicit column count
(a matrix with zero rows, such as spa.csc_matrix((0, n_var)) at problem.py
line 229, still has a column count, which spa.vstack checks). -/
structure Mat where
  rows : List (List ℚ)
  ncols : ℕ
  deriving DecidableEq

/-- np.atleast_2d as used by np.vstack: a 1-D array of length k becomes a
single row of length k (an empty 1-D array becomes one row of length 0). -/
def atleast2d : Arr → List (List ℚ)
  | .v xs => [xs]
  | .m xss => xss

/-- np.vstack: promote every piece to 2-D and stack the rows; all pieces
must have the same number of columns, otherwise numpy raises ValueError. -/
def npVstack (pieces : List Arr) : Except PyErr Arr :=
  match (pieces.map atleast2d).flatten with
  | [] => .error (PyErr.valueError msgVstack)
  | r0 :: rest =>
    if ∀ r ∈ rest, r.length = r0.length then .ok (Arr.m (r0 :: rest))
    else .error (PyErr.valueError msgVstack)

/-- spa.vstack: stack sparse matrices vertically; the column counts must
agree, otherwise scipy raises ValueError. -/
def spaVstack (ms : List Mat) : Except PyErr Mat :=
  match ms with
  | [] => .error (PyErr.valueError msgVstack)
  | m0 :: rest =>
    if ∀ mi ∈ rest, mi.ncols = m0.ncols then
      .ok ⟨((m0 :: rest).map Mat.rows).flatten, m0.ncols⟩
    else .error (PyErr.valueError msgVstack)

/-- numpy fancy indexing xs[idx] with an integer index array: out-of-range
indices raise IndexError, otherwise the selected entries are returned. -/
def npFancyIndex (xs : List ℚ) (idx : List ℕ) : Except PyErr (List ℚ) :=
  if ∀ i ∈ idx, i < xs.length then .ok (idx.map fun i => xs.getD i 0)
  else .error .indexError

/-- Row selection A[idx, :] on a sparse matrix with an integer index array:
out-of-range rows raise IndexError. -/
def selectRows (A : Mat) (idx : List ℕ) : Except PyErr Mat :=
  if ∀ i ∈ idx, i < A.rows.length then
    .ok ⟨idx.map fun i => A.rows.getD i [], A.ncols⟩
  else .error .indexError

/-- Element selection a[idx] on a bound array.  On a 1-D array this is
numpy fancy indexing; the sources only ever reach it with 1-D bounds, and
indexing a 2-D bound array with a row-index tuple is modelled as the same
index failure. -/
def selectElems (a : Arr) (idx : List ℕ) : Except PyErr (List ℚ) :=
  match a with
  | .v xs => npFancyIndex xs idx
  | .m _ => .error .indexError

/-- spa.eye(n, format csc)[idx, :] as built in solve (problem.py line
141): one identity row per index; an index outside [0, n) raises. -/
def spaEyeCscRows (n : ℕ) (idx : List ℕ) : Except PyErr Mat :=
  if ∀ i ∈ idx, i < n then
    .ok ⟨idx.map fun i => (List.range n).map fun j =>
          if j = i then (1 : ℚ) else 0, n⟩
  else .error .indexError

/-- spa.eye(n_var)[int_idx, :] as written in solve_with_strategy
(problem.py line 234).  Unlike line 141, spa.eye is called here without a
format argument, so it returns a matrix in the default dia sparse format,
which supports no subscripting at all: the expression raises TypeError
unconditionally, before the index array (which holds the strategy
int_vars, i.e. solved VALUES of the integer variables, not variable
indices) is even inspected. -/
def spaEyeDiaSub (_n : ℕ) (_vals : List ℚ) : Except PyErr Mat :=
  .error .typeError

/-- np.concatenate((a, xs)) for a 1-D bound array; concatenating a 2-D
array with a 1-D one raises ValueError. -/
def arrConcat (a : Arr) (xs : List ℚ) : Except PyErr (List ℚ) :=
  match a with
  | .v v => .ok (v ++ xs)
  | .m _ => .error (PyErr.valueError msgConcat)

/-- Elementwise subtraction u - l of two bound arrays (the 1-D case; a
shape mismatch raises; numpy length-1 broadcasting is outside the
modelled fragment, which only meets equal-length operands). -/
def arrSub : Arr → Arr → Except PyErr (List ℚ)
  | .v a, .v b =>
    if a.length = b.length then .ok (List.zipWith (fun x y => x - y) a b)
    else .error (PyErr.valueError msgBroadcast)
  | _, _ => .error (PyErr.valueError msgBroadcast)

/-- One-argument np.where: the positions of the nonzero entries. -/
def npWhereNonzero (xs : List ℚ) : List ℕ :=
  (List.range xs.length).filter fun i => xs.getD i 0 ≠ 0

/-- np.where(xs == v) on a trit vector: the positions holding v. -/
def npWhereEq (xs : List ℤ) (v : ℤ) : List ℕ :=
  (List.range xs.length).filter fun i => xs.getD i 0 = v

/-- Python comparison of a tuple (the result of one-argument np.where)
with a float: tuples and floats are unorderable, so Python raises
TypeError unconditionally. -/
def pyLeTupleFloat (_t : List ℕ) (_q : ℚ) : Except PyErr Bool :=
  .error .typeError

/-- Python attribute access x.opt on a numpy array (problem.py line 70):
ndarray has no attribute opt, so Python raises AttributeError. -/
def pyGetAttrOpt (_x : List ℚ) : Except PyErr (List ℚ) :=
  .error .attributeError

/-- Modelled from the spec: constants.TOL (constants.py is absent from the
sources); a positive numerical tolerance. -/
def TOL : ℚ := 1 / 10000

/-- Dot product c.dot(x) over rationals. -/
def dotQ (r x : List ℚ) : ℚ := (List.zipWith (fun a b => a * b) r x).sum

/-- Sum of squares of a vector (the square of its Euclidean norm). -/
def sqNorm (r : List ℚ) : ℚ := (r.map fun a => a * a).sum

/-- Euclidean norm of a matrix row, spa.linalg.norm(A[i, :]). -/
noncomputable def rowNormR (r : List ℚ) : ℝ := Real.sqrt ((sqNorm r : ℚ) : ℝ)

/-- Infinity norm np.linalg.norm(c, np.inf): the largest absolute entry. -/
def normInf (c : List ℚ) : ℚ := (c.map fun a => |a|).foldr max 0

/-- ProblemData (problem.py lines 12-18): one instance of
minimize c.x subject to l ≤ A x ≤ u with integer variables int_idx. -/
structure ProblemData where
  c : List ℚ
  l : Arr
  A : Mat
  u : Arr
  int_idx : List ℕ
  deriving DecidableEq

/-- Modelled from the spec: the Strategy certificate (strategy.py is
absent from the sources; spec section 3): int_vars is the sequence of
solved integer-variable values (floats read off the solution vector, in
int_idx order), active_constraints a trit vector over the rows. -/
structure Strategy where
  int_vars : List ℚ
  active_constraints : List ℤ
  deriving DecidableEq

/-- Modelled from the spec: the result a solver adapter returns (spec
sections 3 and 6): a status, a solution vector, a wall-clock run time and
an active-constraint trit vector aligned to the rows of the instance the
adapter was handed. -/
structure SolverResult where
  status : Status
  x : List ℚ
  run_time : ℚ
  active_constraints : List ℤ
  deriving DecidableEq

/-- A solver adapter: the configured backend as solve sees it after the
SOLVER_MAP lookup, a function from problem data to a result. -/
def SolverAdapter : Type := ProblemData → SolverResult

/-- ProblemData.cost (problem.py lines 29-31): c.dot(x).  Per the design,
shape agreement is the caller's responsibility and is not validated. -/
def ProblemData.cost (d : ProblemData) (x : List ℚ) : ℚ := dotQ d.c x

/-- ProblemData.is_mip (problem.py lines 33-35). -/
def ProblemData.is_mip (d : ProblemData) : Bool := decide (0 < d.int_idx.length)

/-- ProblemData.eq_ineq (problem.py lines 20-27).  The source computes
eq = np.where(self.u - self.l) <= con.TOL: one-argument np.where yields a
tuple of index arrays (the nonzero positions of u - l), and comparing that
tuple with the float TOL raises TypeError, so the call never returns; the
line building ineq is unreachable. -/
def ProblemData.eq_ineq (d : ProblemData) : Except PyErr (List ℕ × List ℕ) := do
  let diff ← arrSub d.u d.l
  let w := npWhereNonzero diff
  let _eq ← pyLeTupleFloat w TOL
  pure ([], [])

/-- OptimizationProblem.is_mip (problem.py lines 40-42). -/
def OptimizationProblem.is_mip (d : ProblemData) : Bool := d.is_mip

/-- OptimizationProblem.cost (problem.py lines 72-73). -/
def OptimizationProblem.cost (d : ProblemData) (x : List ℚ) : ℚ := d.cost x

/-- The normalized upper violation of one row (problem.py lines 52 and
56-58): upper = max(Ai.x - ui, 0); if it is at least TOL it is divided by
max(norm(Ai), abs(ui)). -/
noncomputable def upNorm (row : List ℚ) (ui : ℚ) (x : List ℚ) : ℝ :=
  if TOL ≤ max (dotQ row x - ui) 0 then
    ((max (dotQ row x - ui) 0 : ℚ) : ℝ) / max (rowNormR row) |((ui : ℚ) : ℝ)|
  else ((max (dotQ row x - ui) 0 : ℚ) : ℝ)

/-- The normalized lower violation of one row (problem.py lines 53 and
59-61): lower = max(li - Ai.x, 0); if it is at least TOL it is divided by
max(norm(Ai), abs(li)). -/
noncomputable def loNorm (row : List ℚ) (li : ℚ) (x : List ℚ) : ℝ :=
  if TOL ≤ max (li - dotQ row x) 0 then
    ((max (li - dotQ row x) 0 : ℚ) : ℝ) / max (rowNormR row) |((li : ℚ) : ℝ)|
  else ((max (li - dotQ row x) 0 : ℚ) : ℝ)

/-- The contribution of one row (paired with its lower and upper bound) to
the squared Euclidean norm of upper + lower (problem.py line 63). -/
noncomputable def violTerm (x : List ℚ) (p : List ℚ × ℚ × ℚ) : ℝ :=
  (upNorm p.1 p.2.2 x + loNorm p.1 p.2.1 x) ^ 2

/-- The value of infeasibility on well-shaped 1-D data: the Euclidean norm
of the combined normalized violation vector, np.linalg.norm(upper + lower)
(problem.py line 63). -/
noncomputable def infeasVal (l : List ℚ) (A : List (List ℚ)) (u : List ℚ)
    (x : List ℚ) : ℝ :=
  Real.sqrt (((A.zip (l.zip u)).map (violTerm x)).sum)

/-- OptimizationProblem.infeasibility (problem.py lines 44-63).  The
arithmetic A.dot(x), A.dot(x) - u and l - A.dot(x) requires the shapes to
agree (a mismatch raises), and the bounds must be 1-D arrays. -/
noncomputable def OptimizationProblem.infeasibility (d : ProblemData)
    (x : List ℚ) : Except PyErr ℝ :=
  match d.l, d.u with
  | .v l, .v u =>
    if (∀ r ∈ d.A.rows, r.length = x.length) ∧
        d.A.rows.length = u.length ∧ d.A.rows.length = l.length then
      .ok (infeasVal l d.A.rows u x)
    else .error (PyErr.valueError msgShapes)
  | _, _ => .error (PyErr.valueError msgShapes)

/-- OptimizationProblem.suboptimality (problem.py lines 65-70).  The source
evaluates self.data.cost(x) and then self.data.cost(x.opt): a numpy array
has no attribute opt, so the AttributeError fires before any value is
produced and the x_opt argument is never consulted. -/
def OptimizationProblem.suboptimality (d : ProblemData) (x _x_opt : List ℚ) :
    Except PyErr ℚ := do
  let _cx := d.cost x
  let xo ← pyGetAttrOpt x
  pure ((d.cost x - d.cost xo) / normInf d.c)

/-- OptimizationProblem.solve (problem.py lines 75-158).  Runs the adapter
on the data; a status outside SOLUTION_PRESENT raises ValueError (the
commented-out cvxpy cross-check is purely diagnostic and modelled as a
no-op).  For a MIP it reads the integer values off the solution, builds
the continuous restriction (original rows plus one identity row per
integer index, both bounds set to the solved value), re-solves it with the
same adapter and takes THAT result's full active-constraint vector; for a
continuous problem it takes the primary result's vector.  Returns the
primary solution, the primary run time and the strategy. -/
def OptimizationProblem.solve (solver : SolverAdapter) (d : ProblemData) :
    Except PyErr (List ℚ × ℚ × Strategy) := do
  let results := solver d
  if results.status ∉ SOLUTION_PRESENT then
    .error (PyErr.valueError (msgNotSolved results.status))
  else
    let x_opt := results.x
    let time := results.run_time
    if d.is_mip then do
      let x_int ← npFancyIndex results.x d.int_idx
      let n_var := d.c.length
      let eyeRows ← spaEyeCscRows n_var d.int_idx
      let A_cont ← spaVstack [d.A, eyeRows]
      let u_cont ← arrConcat d.u x_int
      let l_cont ← arrConcat d.l x_int
      let data_cont : ProblemData := ⟨d.c, Arr.v l_cont, A_cont, Arr.v u_cont, []⟩
      let results_cont := solver data_cont
      pure (x_opt, time, ⟨x_int, results_cont.active_constraints⟩)
    else
      pure (x_opt, time, ⟨[], results.active_constraints⟩)

/-- The assert block opening solve_with_strategy (problem.py lines
222-224): on a MIP it asserts np.max(strategy.int_vars) <= len(self.data.l)
and np.min(strategy.int_vars) >= 0; np.max and np.min on an empty array
raise ValueError. -/
def OptimizationProblem.swsValidate (d : ProblemData) (s : Strategy) :
    Except PyErr Unit :=
  if d.is_mip then
    match s.int_vars with
    | [] => .error (PyErr.valueError msgEmptyReduce)
    | v :: vs =>
      if List.foldl max v vs ≤ (d.l.len : ℚ) then
        if 0 ≤ List.foldl min v vs then .ok ()
        else .error (PyErr.assertionError msgAssertMin)
      else .error (PyErr.assertionError msgAssertMax)
  else .ok ()

/-- OptimizationProblem.solve_with_strategy (problem.py lines 197-254).
After the assert block: start from an empty (0, n_var) matrix and an empty
1-D bound array; on a MIP, subscript the dia-format identity by the
strategy int_vars (raising TypeError, see spaEyeDiaSub) and np.vstack the
values onto the bound array; then select the rows with active constraint +1 and
-1, stack them and np.vstack the corresponding bounds; build the reduced
ProblemData with both bound fields equal to the stacked bound array and no
integer indices, and solve it with the adapter, returning its solution and
run time. -/
def OptimizationProblem.solve_with_strategy (solver : SolverAdapter)
    (d : ProblemData) (s : Strategy) : Except PyErr (List ℚ × ℚ) := do
  OptimizationProblem.swsValidate d s
  let n_var := d.c.length
  let (aRed0, bound0) ←
    if d.is_mip then do
      let eyeRows ← spaEyeDiaSub n_var s.int_vars
      let aRed1 ← spaVstack [⟨[], n_var⟩, eyeRows]
      let bound1 ← npVstack [Arr.v [], Arr.v s.int_vars]
      pure (aRed1, bound1)
    else
      pure ((⟨[], n_var⟩ : Mat), Arr.v [])
  let acUpper := npWhereEq s.active_constraints 1
  let acLower := npWhereEq s.active_constraints (-1)
  let aUpper ← selectRows d.A acUpper
  let uUpper ← selectElems d.u acUpper
  let aLower ← selectRows d.A acLower
  let lLower ← selectElems d.l acLower
  let aRed ← spaVstack [aRed0, aLower, aUpper]
  let boundRed ← npVstack [bound0, Arr.v lLower, Arr.v uUpper]
  let dRed : ProblemData := ⟨d.c, boundRed, aRed, boundRed, []⟩
  let r ← OptimizationProblem.solve solver dRed
  pure (r.1, r.2.1)

/-- Exact elementwise feasibility of x for the rows of A between l and u:
every row satisfies its bounds with zero violation. -/
def feasibleExact (A : List (List ℚ)) (l u x : List ℚ) : Prop :=
  ∀ p ∈ A.zip (l.zip u), p.2.1 ≤ dotQ p.1 x ∧ dotQ p.1 x ≤ p.2.2

instance (A : List (List ℚ)) (l u x : List ℚ) :
    Decidable (feasibleExact A l u x) :=
  List.decidableBAll _ _

/-- Boolean success test on an Except value (did the call return rather
than raise). -/
def isOkE {ε α : Type} : Except ε α → Bool
  | .ok _ => true
  | .error _ => false

/-- A solver adapter that returns a fixed result on every instance; used
to instantiate the abstract adapter on concrete scenarios. -/
def constSolver (r : SolverResult) : SolverAdapter := fun _ => r

/-- A solver adapter honouring the shape contract of spec section 6: the
solution vector has one entry per variable and the active-constraint trit
vector is aligned to the rows of the instance it is handed. -/
def echoSolver : SolverAdapter := fun p =>
  ⟨Status.solved, List.replicate p.c.length 1, 0, List.replicate p.A.rows.length 0⟩

/-! Helper lemmas. -/

lemma exceptBind_ok {ε α β : Type} {a : Except ε α} {f : α → Except ε β} {b : β}
    (h : (a >>= f) = Except.ok b) : ∃ w, a = Except.ok w ∧ f w = Except.ok b := by
  cases a with
  | error e => simp [Bind.bind, Except.bind] at h
  | ok w => exact ⟨w, rfl, by simpa [Bind.bind, Except.bind] using h⟩

lemma sum_eq_zero_iff_nonneg {α : Type} [LinearOrderedAddCommGroup α] {l : List α}
    (h : ∀ a ∈ l, 0 ≤ a) : l.sum = 0 ↔ ∀ a ∈ l, a = 0 := by
  induction l with
  | nil => simp
  | cons a t ih =>
    have ha : 0 ≤ a := h a (by simp)
    have ht : ∀ b ∈ t, 0 ≤ b := fun b hb => h b (by simp [hb])
    have hts : 0 ≤ t.sum := List.sum_nonneg ht
    simp only [List.sum_cons, List.mem_cons]
    constructor
    · intro h0
      have ha0 : a = 0 := le_antisymm
        (by rw [eq_neg_of_add_eq_zero_left h0]; exact neg_nonpos.mpr hts) ha
      have hts0 : t.sum = 0 := by rw [ha0, zero_add] at h0; exact h0
      intro b hb
      rcases hb with rfl | hbt
      · exact ha0
      · exact (ih ht).mp hts0 b hbt
    · intro hall
      have ha0 : a = 0 := hall a (Or.inl rfl)
      have hts0 : t.sum = 0 := (ih ht).mpr fun b hb => hall b (Or.inr hb)
      rw [ha0, hts0, add_zero]

lemma sqNorm_nonneg (r : List ℚ) : 0 ≤ sqNorm r := by
  apply List.sum_nonneg
  intro a ha
  obtain ⟨b, _, rfl⟩ := List.mem_map.mp ha
  exact mul_self_nonneg b

lemma sqNorm_eq_zero_iff (r : List ℚ) : sqNorm r = 0 ↔ ∀ a ∈ r, a = 0 := by
  unfold sqNorm
  rw [sum_eq_zero_iff_nonneg]
  · constructor
    · intro h a ha
      exact mul_self_eq_zero.mp (h (a * a) (List.mem_map_of_mem _ ha))
    · intro h b hb
      obtain ⟨a, ha, rfl⟩ := List.mem_map.mp hb
      rw [h a ha, mul_zero]
  · intro a ha
    obtain ⟨b, _, rfl⟩ := List.mem_map.mp ha
    exact mul_self_nonneg b

lemma dotQ_zero_of_zero_row : ∀ (r x : List ℚ), (∀ a ∈ r, a = 0) → dotQ r x = 0 := by
  intro r
  induction r with
  | nil => intro x _; simp [dotQ]
  | cons a t ih =>
    intro x h
    cases x with
    | nil => simp [dotQ]
    | cons b y =>
      have ha : a = 0 := h a (by simp)
      have ht : dotQ t y = 0 := ih y fun c hc => h c (List.mem_cons_of_mem _ hc)
      unfold dotQ at ht ⊢
      rw [List.zipWith_cons_cons, List.sum_cons, ha, zero_mul, zero_add]
      exact ht

lemma rowNormR_nonneg (r : List ℚ) : 0 ≤ rowNormR r := Real.sqrt_nonneg _

lemma rowNormR_eq_zero_imp {r : List ℚ} (h : rowNormR r = 0) : ∀ a ∈ r, a = 0 := by
  unfold rowNormR at h
  rw [Real.sqrt_eq_zero'] at h
  have h3 : sqNorm r ≤ 0 := by exact_mod_cast h
  exact (sqNorm_eq_zero_iff r).mp (le_antisymm h3 (sqNorm_nonneg r))

lemma upNorm_nonneg (row : List ℚ) (ui : ℚ) (x : List ℚ) : 0 ≤ upNorm row ui x := by
  unfold upNorm
  split
  · apply div_nonneg
    · exact_mod_cast le_max_right (dotQ row x - ui) 0
    · exact le_trans (rowNormR_nonneg row) (le_max_left _ _)
  · exact_mod_cast le_max_right (dotQ row x - ui) 0

lemma loNorm_nonneg (row : List ℚ) (li : ℚ) (x : List ℚ) : 0 ≤ loNorm row li x := by
  unfold loNorm
  split
  · apply div_nonneg
    · exact_mod_cast le_max_right (li - dotQ row x) 0
    · exact le_trans (rowNormR_nonneg row) (le_max_left _ _)
  · exact_mod_cast le_max_right (li - dotQ row x) 0

lemma upNorm_eq_zero_iff (row : List ℚ) (ui : ℚ) (x : List ℚ) :
    upNorm row ui x = 0 ↔ dotQ row x ≤ ui := by
  unfold upNorm
  split
  case isTrue hcond =>
    have htol : (0 : ℚ) < TOL := by norm_num [TOL]
    have hup : (0 : ℚ) < max (dotQ row x - ui) 0 := lt_of_lt_of_le htol hcond
    have hden : 0 < max (rowNormR row) |((ui : ℚ) : ℝ)| := by
      by_contra hle
      push_neg at hle
      have h1 : rowNormR row ≤ 0 := le_trans (le_max_left _ _) hle
      have h2 : |((ui : ℚ) : ℝ)| ≤ 0 := le_trans (le_max_right _ _) hle
      have h1x : rowNormR row = 0 := le_antisymm h1 (rowNormR_nonneg row)
      have h2x : ((ui : ℚ) : ℝ) = 0 := abs_eq_zero.mp (le_antisymm h2 (abs_nonneg _))
      have hui : ui = 0 := by exact_mod_cast h2x
      have hax : dotQ row x = 0 := dotQ_zero_of_zero_row row x (rowNormR_eq_zero_imp h1x)
      rw [hax, hui] at hup
      simp at hup
    constructor
    · intro h0
      exfalso
      rw [div_eq_zero_iff] at h0
      rcases h0 with h0 | h0
      · have hq : max (dotQ row x - ui) 0 = 0 := by exact_mod_cast h0
        rw [hq] at hup
        exact lt_irrefl 0 hup
      · exact absurd h0 (ne_of_gt hden)
    · intro hle
      exfalso
      have hm : max (dotQ row x - ui) 0 = 0 := max_eq_right (by linarith)
      rw [hm] at hup
      exact lt_irrefl 0 hup
  case isFalse hcond =>
    constructor
    · intro h0
      have hq : max (dotQ row x - ui) 0 = 0 := by exact_mod_cast h0
      have := max_eq_right_iff.mp hq
      linarith
    · intro hle
      have hm : max (dotQ row x - ui) 0 = 0 := max_eq_right (by linarith)
      rw [hm]
      norm_num

lemma loNorm_eq_zero_iff (row : List ℚ) (li : ℚ) (x : List ℚ) :
    loNorm row li x = 0 ↔ li ≤ dotQ row x := by
  unfold loNorm
  split
  case isTrue hcond =>
    have htol : (0 : ℚ) < TOL := by norm_num [TOL]
    have hup : (0 : ℚ) < max (li - dotQ row x) 0 := lt_of_lt_of_le htol hcond
    have hden : 0 < max (rowNormR row) |((li : ℚ) : ℝ)| := by
      by_contra hle
      push_neg at hle
      have h1 : rowNormR row ≤ 0 := le_trans (le_max_left _ _) hle
      have h2 : |((li : ℚ) : ℝ)| ≤ 0 := le_trans (le_max_right _ _) hle
      have h1x : rowNormR row = 0 := le_antisymm h1 (rowNormR_nonneg row)
      have h2x : ((li : ℚ) : ℝ) = 0 := abs_eq_zero.mp (le_antisymm h2 (abs_nonneg _))
      have hli : li = 0 := by exact_mod_cast h2x
      have hax : dotQ row x = 0 := dotQ_zero_of_zero_row row x (rowNormR_eq_zero_imp h1x)
      rw [hax, hli] at hup
      simp at hup
    constructor
    · intro h0
      exfalso
      rw [div_eq_zero_iff] at h0
      rcases h0 with h0 | h0
      · have hq : max (li - dotQ row x) 0 = 0 := by exact_mod_cast h0
        rw [hq] at hup
        exact lt_irrefl 0 hup
      · exact absurd h0 (ne_of_gt hden)
    · intro hle
      exfalso
      have hm : max (li - dotQ row x) 0 = 0 := max_eq_right (by linarith)
      rw [hm] at hup
      exact lt_irrefl 0 hup
  case isFalse hcond =>
    constructor
    · intro h0
      have hq : max (li - dotQ row x) 0 = 0 := by exact_mod_cast h0
      have := max_eq_right_iff.mp hq
      linarith
    · intro hle
      have hm : max (li - dotQ row x) 0 = 0 := max_eq_right (by linarith)
      rw [hm]
      norm_num

lemma violTerm_nonneg (x : List ℚ) (p : List ℚ × ℚ × ℚ) : 0 ≤ violTerm x p :=
  sq_nonneg _

lemma violTerm_eq_zero_iff (x : List ℚ) (p : List ℚ × ℚ × ℚ) :
    violTerm x p = 0 ↔ (p.2.1 ≤ dotQ p.1 x ∧ dotQ p.1 x ≤ p.2.2) := by
  unfold violTerm
  rw [pow_eq_zero_iff (two_ne_zero),
    add_eq_zero_iff_of_nonneg (upNorm_nonneg _ _ _) (loNorm_nonneg _ _ _),
    upNorm_eq_zero_iff, loNorm_eq_zero_iff]
  exact and_comm

lemma infeasVal_nonneg (l : List ℚ) (A : List (List ℚ)) (u x : List ℚ) :
    0 ≤ infeasVal l A u x := Real.sqrt_nonneg _

lemma infeasVal_eq_zero_iff (l : List ℚ) (A : List (List ℚ)) (u x : List ℚ) :
    infeasVal l A u x = 0 ↔ feasibleExact A l u x := by
  unfold infeasVal feasibleExact
  rw [Real.sqrt_eq_zero']
  have hnn : ∀ t ∈ (A.zip (l.zip u)).map (violTerm x), 0 ≤ t := by
    intro t ht
    obtain ⟨p, _, rfl⟩ := List.mem_map.mp ht
    exact violTerm_nonneg x p
  have hsum := List.sum_nonneg hnn
  constructor
  · intro hle
    have h0 := le_antisymm hle hsum
    rw [sum_eq_zero_iff_nonneg hnn] at h0
    intro p hp
    exact (violTerm_eq_zero_iff x p).mp (h0 _ (List.mem_map_of_mem _ hp))
  · intro hf
    apply le_of_eq
    rw [sum_eq_zero_iff_nonneg hnn]
    intro t ht
    obtain ⟨p, hp, rfl⟩ := List.mem_map.mp ht
    exact (violTerm_eq_zero_iff x p).mpr (hf p hp)

lemma solve_isOk_of_present (solver : SolverAdapter) (d : ProblemData)
    (uv lv : List ℚ) (hu : d.u = Arr.v uv) (hl : d.l = Arr.v lv)
    (hA : d.A.ncols = d.c.length) (hx : (solver d).x.length = d.c.length)
    (hidx : ∀ i ∈ d.int_idx, i < d.c.length)
    (hs : (solver d).status ∈ SOLUTION_PRESENT) :
    isOkE (OptimizationProblem.solve solver d) = true := by
  unfold OptimizationProblem.solve
  rw [if_neg (not_not_intro hs)]
  by_cases hm : d.is_mip = true
  · rw [if_pos hm]
    have h1 : npFancyIndex (solver d).x d.int_idx =
        Except.ok (d.int_idx.map fun i => (solver d).x.getD i 0) := by
      unfold npFancyIndex
      exact if_pos (fun i hi => hx ▸ hidx i hi)
    have h2 : spaEyeCscRows d.c.length d.int_idx =
        Except.ok ⟨d.int_idx.map fun i => (List.range d.c.length).map fun j =>
          if j = i then (1 : ℚ) else 0, d.c.length⟩ := by
      unfold spaEyeCscRows
      exact if_pos hidx
    have h3 : ∀ M : Mat, M.ncols = d.c.length →
        spaVstack [d.A, M] = Except.ok ⟨d.A.rows ++ (M.rows ++ []), d.A.ncols⟩ := by
      intro M hM
      simp only [spaVstack]
      rw [if_pos]
      · simp
      · intro mi hmi
        simp at hmi
        rw [hmi, hM, hA]
    simp only [h1, h2, Bind.bind, Except.bind]
    rw [h3 _ rfl]
    simp only [hu, hl, arrConcat]
    rfl
  · rw [if_neg hm]
    rfl

/-! Claim theorems. -/

/-- C2: for every instance on which OptimizationProblem.solve succeeds, the
returned solution vector is exactly the primary adapter call's reported
optimum for the original ProblemData and the returned time is that call's
run_time; in particular the MIP continuous-restriction re-solve never
contributes the returned solution. -/
theorem solve_returns_primary (solver : SolverAdapter) (d : ProblemData)
    (x : List ℚ) (t : ℚ) (s : Strategy)
    (h : OptimizationProblem.solve solver d = Except.ok (x, t, s)) :
    x = (solver d).x ∧ t = (solver d).run_time := by
  unfold OptimizationProblem.solve at h
  by_cases hs : (solver d).status ∉ SOLUTION_PRESENT
  · rw [if_pos hs] at h
    exact absurd h (by simp)
  · rw [if_neg hs] at h
    by_cases hm : d.is_mip = true
    · rw [if_pos hm] at h
      obtain ⟨xi, hxi, h⟩ := exceptBind_ok h
      obtain ⟨er, her, h⟩ := exceptBind_ok h
      obtain ⟨ac, hac, h⟩ := exceptBind_ok h
      obtain ⟨uc, huc, h⟩ := exceptBind_ok h
      obtain ⟨lc, hlc, h⟩ := exceptBind_ok h
      simp only [pure, Except.pure, Except.ok.injEq, Prod.mk.injEq] at h
      exact ⟨h.1.symm, h.2.1.symm⟩
    · rw [if_neg hm] at h
      simp only [pure, Except.pure, Except.ok.injEq, Prod.mk.injEq] at h
      exact ⟨h.1.symm, h.2.1.symm⟩

/-- Witness for C2: a continuous instance on which the constant adapter
reports optimum [7] in time 3; solve succeeds and returns exactly those. -/
theorem solve_returns_primary_witness :
    ([7] : List ℚ) = (constSolver ⟨Status.solved, [7], 3, [0]⟩
        ⟨[1], Arr.v [0], ⟨[[1]], 1⟩, Arr.v [1], []⟩).x
    ∧ (3 : ℚ) = (constSolver ⟨Status.solved, [7], 3, [0]⟩
        ⟨[1], Arr.v [0], ⟨[[1]], 1⟩, Arr.v [1], []⟩).run_time :=
  solve_returns_primary (constSolver ⟨Status.solved, [7], 3, [0]⟩)
    ⟨[1], Arr.v [0], ⟨[[1]], 1⟩, Arr.v [1], []⟩ [7] 3 ⟨[], [0]⟩ (by decide)

/-- C1 (code bug evaluated at the failing input): on the one-variable LP
minimize x subject to 0 ≤ x ≤ 2 with an adapter reporting the optimum
x = 0 and the lower bound active, solve succeeds and returns the strategy
([], [-1]); re-solving with that very strategy on the same unmutated
instance does not return a solution near x_opt but raises ValueError,
because solve_with_strategy stacks the 1-D bound arrays of unequal lengths
as rows via np.vstack (np.concatenate was intended). -/
theorem solve_roundtrip_crashes :
    OptimizationProblem.solve (constSolver ⟨Status.solved, [0], 5, [-1]⟩)
        ⟨[1], Arr.v [0], ⟨[[1]], 1⟩, Arr.v [2], []⟩
      = Except.ok ([0], 5, ⟨[], [-1]⟩)
    ∧ OptimizationProblem.solve_with_strategy (constSolver ⟨Status.solved, [0], 5, [-1]⟩)
        ⟨[1], Arr.v [0], ⟨[[1]], 1⟩, Arr.v [2], []⟩ ⟨[], [-1]⟩
      = Except.error (PyErr.valueError msgVstack) := by decide

/-- C3 (code bug evaluated at the failing input): on a MIP with m = 1
constraint row and one integer variable, with an adapter whose
active-constraint vector is aligned to the rows of whatever instance it is
handed (echoSolver), solve stores the continuous restriction's FULL
active-constraint vector in the strategy, so its length is m + 1 = 2, not
the claimed m. -/
theorem solve_strategy_active_constraints_full_length :
    OptimizationProblem.solve echoSolver ⟨[1], Arr.v [0], ⟨[[1]], 1⟩, Arr.v [1], [0]⟩
        = Except.ok ([1], 0, ⟨[1], [0, 0]⟩)
      ∧ ((⟨[1], [0, 0]⟩ : Strategy)).active_constraints.length
        = (⟨[[1]], 1⟩ : Mat).rows.length + 1 := by decide

/-- C4 (code bug evaluated at the failing input): on a continuous instance
with two rows and the certificate [-1, +1], solve_with_strategy never
produces the claimed reduced ProblemData with stacked equality rows and
equal bounds; np.vstack on the bound side raises ValueError because the
initial empty bound array, the selected lower bounds and the selected
upper bounds are 1-D arrays of unequal lengths stacked as rows. -/
theorem solve_with_strategy_construction_crashes :
    OptimizationProblem.solve_with_strategy (constSolver ⟨Status.solved, [0], 0, []⟩)
        ⟨[1], Arr.v [0, 0], ⟨[[1], [1]], 1⟩, Arr.v [2, 2], []⟩ ⟨[], [-1, 1]⟩
      = Except.error (PyErr.valueError msgVstack) := by decide

/-- Counterexample for C5: on a MIP with n = 2 variables and m = 3 rows,
the strategy value 2 lies outside the claimed range [0, n) = [0, 2), yet
the assert block accepts it (it compares against len(l) = 3, inclusively),
and the subsequent failure of solve_with_strategy is the TypeError of
subscripting the dia-format identity during the reduced-problem
construction (problem.py line 234), not the claimed ValidationError. -/
theorem sws_validation_accepts_out_of_range :
    OptimizationProblem.swsValidate
        ⟨[1, 1], Arr.v [0, 0, 0], ⟨[[1, 0], [0, 1], [1, 1]], 2⟩, Arr.v [1, 1, 1], [0]⟩
        ⟨[2], [0, 0, 0]⟩ = Except.ok ()
      ∧ ¬((2 : ℚ) < (([1, 1] : List ℚ).length : ℚ))
      ∧ OptimizationProblem.solve_with_strategy (constSolver ⟨Status.solved, [0], 0, []⟩)
          ⟨[1, 1], Arr.v [0, 0, 0], ⟨[[1, 0], [0, 1], [1, 1]], 2⟩, Arr.v [1, 1, 1], [0]⟩
          ⟨[2], [0, 0, 0]⟩ = Except.error PyErr.typeError := by decide

/-- C5 as amended: on a MIP with a nonempty int_vars, the assert block of
solve_with_strategy accepts the strategy exactly when every int_vars value
lies between 0 and len(l) inclusive (max(int_vars) ≤ len(l) and
min(int_vars) ≥ 0); when it rejects, solve_with_strategy surfaces the
corresponding AssertionError (max check first), before any construction. -/
theorem sws_validation_characterization (solver : SolverAdapter)
    (d : ProblemData) (s : Strategy) (v : ℚ) (vs : List ℚ)
    (hm : d.is_mip = true) (hiv : s.int_vars = v :: vs) :
    (OptimizationProblem.swsValidate d s = Except.ok ()
        ↔ (List.foldl max v vs ≤ (d.l.len : ℚ) ∧ 0 ≤ List.foldl min v vs))
    ∧ (¬(List.foldl max v vs ≤ (d.l.len : ℚ) ∧ 0 ≤ List.foldl min v vs) →
        OptimizationProblem.solve_with_strategy solver d s =
          Except.error (if List.foldl max v vs ≤ (d.l.len : ℚ)
            then PyErr.assertionError msgAssertMin
            else PyErr.assertionError msgAssertMax)) := by
  have hval : OptimizationProblem.swsValidate d s =
      (if List.foldl max v vs ≤ (d.l.len : ℚ) then
        (if 0 ≤ List.foldl min v vs then Except.ok ()
         else Except.error (PyErr.assertionError msgAssertMin))
       else Except.error (PyErr.assertionError msgAssertMax)) := by
    unfold OptimizationProblem.swsValidate
    rw [hiv]
    simp [hm]
  constructor
  · rw [hval]
    by_cases h1 : List.foldl max v vs ≤ (d.l.len : ℚ)
    · by_cases h2 : 0 ≤ List.foldl min v vs
      · simp [h1, h2]
      · simp [h1, h2]
    · simp [h1]
  · intro hn
    have herr : OptimizationProblem.swsValidate d s =
        Except.error (if List.foldl max v vs ≤ (d.l.len : ℚ)
          then PyErr.assertionError msgAssertMin
          else PyErr.assertionError msgAssertMax) := by
      rw [hval]
      by_cases h1 : List.foldl max v vs ≤ (d.l.len : ℚ)
      · by_cases h2 : 0 ≤ List.foldl min v vs
        · exact absurd ⟨h1, h2⟩ hn
        · simp [h1, h2]
      · simp [h1]
    unfold OptimizationProblem.solve_with_strategy
    rw [herr]
    rfl

/-- Witness for C5 as amended: a MIP with len(l) = 1 and int_vars = [5];
the max check fails, so the accept-iff is vacuous on both sides and
solve_with_strategy surfaces the AssertionError of the max assert. -/
theorem sws_validation_characterization_witness :
    (OptimizationProblem.swsValidate ⟨[1], Arr.v [0], ⟨[[1]], 1⟩, Arr.v [1], [0]⟩
        ⟨[5], [0]⟩ = Except.ok ()
      ↔ (List.foldl max (5 : ℚ) []
            ≤ (((⟨[1], Arr.v [0], ⟨[[1]], 1⟩, Arr.v [1], [0]⟩ : ProblemData)).l.len : ℚ)
          ∧ (0 : ℚ) ≤ List.foldl min (5 : ℚ) []))
    ∧ (¬(List.foldl max (5 : ℚ) []
            ≤ (((⟨[1], Arr.v [0], ⟨[[1]], 1⟩, Arr.v [1], [0]⟩ : ProblemData)).l.len : ℚ)
          ∧ (0 : ℚ) ≤ List.foldl min (5 : ℚ) []) →
        OptimizationProblem.solve_with_strategy (constSolver ⟨Status.solved, [0], 0, []⟩)
          ⟨[1], Arr.v [0], ⟨[[1]], 1⟩, Arr.v [1], [0]⟩ ⟨[5], [0]⟩
        = Except.error (if List.foldl max (5 : ℚ) []
              ≤ (((⟨[1], Arr.v [0], ⟨[[1]], 1⟩, Arr.v [1], [0]⟩ : ProblemData)).l.len : ℚ)
            then PyErr.assertionError msgAssertMin
            else PyErr.assertionError msgAssertMax)) :=
  sws_validation_characterization (constSolver ⟨Status.solved, [0], 0, []⟩)
    ⟨[1], Arr.v [0], ⟨[[1]], 1⟩, Arr.v [1], [0]⟩ ⟨[5], [0]⟩ 5 [] (by decide) rfl

/-- C6 (code bug evaluated at the failing input): eq_ineq never returns the
claimed partition; on any instance (here one row with u - l = 1) the
expression np.where(u - l) <= TOL compares a tuple of index arrays with a
float and raises TypeError. -/
theorem eq_ineq_raises_type_error :
    ProblemData.eq_ineq ⟨[1], Arr.v [0], ⟨[[1]], 1⟩, Arr.v [1], []⟩
      = Except.error PyErr.typeError := by decide

/-- Counterexample for C7: with one row, l = u = 0 and x = [1/20000], the
violation 1/20000 is within TOL = 1/10000, so the claim asserts
infeasibility 0; the code returns the strictly positive value 1/20000
(a violation below TOL is skipped by the normalization loop but still
enters the final norm). -/
theorem infeasibility_positive_within_tol :
    OptimizationProblem.infeasibility ⟨[1], Arr.v [0], ⟨[[1]], 1⟩, Arr.v [0], []⟩
        [1/20000] = Except.ok ((1 : ℝ)/20000)
      ∧ (0 : ℝ) < 1/20000 ∧ (1 : ℚ)/20000 ≤ TOL := by
  refine ⟨?_, by norm_num, by norm_num [TOL]⟩
  have hdot : dotQ [1] [(1 : ℚ)/20000] = 1/20000 := by simp [dotQ]
  have hup : upNorm [1] 0 [1/20000] = (((1 : ℚ)/20000 : ℚ) : ℝ) := by
    unfold upNorm
    rw [hdot, if_neg (by norm_num [TOL])]
    norm_num
  have hlo : loNorm [1] 0 [1/20000] = 0 := by
    unfold loNorm
    rw [hdot, if_neg (by norm_num [TOL])]
    norm_num
  unfold OptimizationProblem.infeasibility
  dsimp only
  rw [if_pos (by decide)]
  congr 1
  unfold infeasVal
  simp only [List.zip_cons_cons, List.zip_nil_right, List.map_cons, List.map_nil,
    List.sum_cons, List.sum_nil, violTerm, hup, hlo, add_zero]
  rw [Real.sqrt_sq (by positivity)]
  push_cast
  norm_num

/-- C7 as amended: whenever infeasibility returns a value on 1-D data, that
value is nonnegative, and it is zero exactly when x satisfies every row's
bounds with zero violation (so any positive violation, even below TOL,
makes it strictly positive; TOL only gates the normalization). -/
theorem infeasibility_nonneg_zero_iff (c : List ℚ) (A : Mat)
    (lv uv x : List ℚ) (idx : List ℕ) (r : ℝ)
    (h : OptimizationProblem.infeasibility ⟨c, Arr.v lv, A, Arr.v uv, idx⟩ x
      = Except.ok r) :
    0 ≤ r ∧ (r = 0 ↔ feasibleExact A.rows lv uv x) := by
  unfold OptimizationProblem.infeasibility at h
  dsimp only at h
  split at h
  · simp only [Except.ok.injEq] at h
    subst h
    exact ⟨infeasVal_nonneg _ _ _ _, infeasVal_eq_zero_iff _ _ _ _⟩
  · exact absurd h (by simp)

/-- Witness for C7 as amended: on the instance with one row 0 ≤ x ≤ 1 the
point x = 0 is exactly feasible and infeasibility returns 0. -/
theorem infeasibility_nonneg_zero_iff_witness :
    0 ≤ (0 : ℝ) ∧ ((0 : ℝ) = 0 ↔ feasibleExact [[1]] [0] [1] [0]) := by
  have hdot : dotQ [1] [(0 : ℚ)] = 0 := by simp [dotQ]
  have hup : upNorm [1] 1 [0] = 0 := by
    unfold upNorm
    rw [hdot, if_neg (by norm_num [TOL])]
    norm_num
  have hlo : loNorm [1] 0 [0] = 0 := by
    unfold loNorm
    rw [hdot, if_neg (by norm_num [TOL])]
    norm_num
  have h : OptimizationProblem.infeasibility
      ⟨[1], Arr.v [0], ⟨[[1]], 1⟩, Arr.v [1], []⟩ [0] = Except.ok 0 := by
    unfold OptimizationProblem.infeasibility
    dsimp only
    rw [if_pos (by decide)]
    congr 1
    unfold infeasVal
    simp only [List.zip_cons_cons, List.zip_nil_right, List.map_cons, List.map_nil,
      List.sum_cons, List.sum_nil, violTerm, hup, hlo, add_zero]
    simp [Real.sqrt_zero]
  exact infeasibility_nonneg_zero_iff [1] ⟨[[1]], 1⟩ [0] [1] [0] [] 0 h

/-- C8 (code bug evaluated at the failing input): suboptimality never
returns the claimed normalized gap; on c = [1] with x = [1], x_opt = [0]
the claim gives (1 - 0)/1 = 1, but the source evaluates x.opt, an
attribute numpy arrays do not have, and raises AttributeError, ignoring
the x_opt argument entirely. -/
theorem suboptimality_raises_attribute_error :
    OptimizationProblem.suboptimality ⟨[1], Arr.v [0], ⟨[[1]], 1⟩, Arr.v [1], []⟩ [1] [0]
      = Except.error PyErr.attributeError := by decide

/-- Counterexample for C9: two different ProblemData instances (the spec's
infeasible scenario l = [5], u = [1], with costs [1] and [2]) fed to an
adapter reporting an infeasible status produce the very same error value,
a ValueError whose message holds only the status; the raised error
therefore cannot carry the offending ProblemData, and it is not a
dedicated SolverError object. -/
theorem solve_error_drops_problem_data :
    OptimizationProblem.solve (constSolver ⟨Status.infeasible, [0], 0, []⟩)
        ⟨[1], Arr.v [5], ⟨[[1]], 1⟩, Arr.v [1], []⟩
      = Except.error (PyErr.valueError (msgNotSolved Status.infeasible))
    ∧ OptimizationProblem.solve (constSolver ⟨Status.infeasible, [0], 0, []⟩)
        ⟨[2], Arr.v [5], ⟨[[1]], 1⟩, Arr.v [1], []⟩
      = Except.error (PyErr.valueError (msgNotSolved Status.infeasible))
    ∧ (⟨[1], Arr.v [5], ⟨[[1]], 1⟩, Arr.v [1], []⟩ : ProblemData)
        ≠ ⟨[2], Arr.v [5], ⟨[[1]], 1⟩, Arr.v [1], []⟩ := by decide

/-- C9 as amended: for well-formed data and an adapter meeting the shape
contract, solve raises the ValueError carrying the reported status in its
message exactly when the primary status is outside the solution-present
set; in that case no solution is returned, and otherwise solve succeeds. -/
theorem solve_error_characterization (solver : SolverAdapter) (d : ProblemData)
    (uv lv : List ℚ) (hu : d.u = Arr.v uv) (hl : d.l = Arr.v lv)
    (hA : d.A.ncols = d.c.length) (hx : (solver d).x.length = d.c.length)
    (hidx : ∀ i ∈ d.int_idx, i < d.c.length) :
    (OptimizationProblem.solve solver d =
        Except.error (PyErr.valueError (msgNotSolved (solver d).status)))
      ↔ (solver d).status ∉ SOLUTION_PRESENT := by
  constructor
  · intro he hs
    have hok := solve_isOk_of_present solver d uv lv hu hl hA hx hidx hs
    rw [he] at hok
    exact absurd hok (by simp [isOkE])
  · intro hs
    unfold OptimizationProblem.solve
    rw [if_pos hs]

/-- Witness for C9 as amended: the spec's infeasible scenario l = [5],
u = [1] under an adapter reporting status infeasible; solve raises exactly
the status-carrying ValueError since the status is not solution-present. -/
theorem solve_error_characterization_witness :
    (OptimizationProblem.solve (constSolver ⟨Status.infeasible, [0], 0, []⟩)
        ⟨[1], Arr.v [5], ⟨[[1]], 1⟩, Arr.v [1], []⟩
      = Except.error (PyErr.valueError (msgNotSolved
          (constSolver ⟨Status.infeasible, [0], 0, []⟩
            ⟨[1], Arr.v [5], ⟨[[1]], 1⟩, Arr.v [1], []⟩).status)))
    ↔ (constSolver ⟨Status.infeasible, [0], 0, []⟩
        ⟨[1], Arr.v [5], ⟨[[1]], 1⟩, Arr.v [1], []⟩).status ∉ SOLUTION_PRESENT :=
  solve_error_characterization (constSolver ⟨Status.infeasible, [0], 0, []⟩)
    ⟨[1], Arr.v [5], ⟨[[1]], 1⟩, Arr.v [1], []⟩ [1] [5] rfl rfl rfl rfl (by simp)

/-- C10: when the instance has no integer variables, solve_with_strategy
never consults strategy.int_vars: the assert block is skipped and no
variable-fixing rows are added, so any two strategies differing only in
int_vars (even a non-empty one) yield identical results. -/
theorem sws_ignores_int_vars_when_continuous (solver : SolverAdapter)
    (d : ProblemData) (iv iv2 : List ℚ) (ac : List ℤ)
    (h : d.is_mip = false) :
    OptimizationProblem.solve_with_strategy solver d ⟨iv, ac⟩ =
      OptimizationProblem.solve_with_strategy solver d ⟨iv2, ac⟩ := by
  unfold OptimizationProblem.solve_with_strategy OptimizationProblem.swsValidate
  simp [h]

/-- Witness for C10: a continuous instance where the strategy carrying
int_vars = [3] and the one carrying none give the same outcome. -/
theorem sws_ignores_int_vars_when_continuous_witness :
    OptimizationProblem.solve_with_strategy (constSolver ⟨Status.solved, [4], 2, [0]⟩)
        ⟨[1], Arr.v [0], ⟨[[1]], 1⟩, Arr.v [2], []⟩ ⟨[3], [0]⟩
      = OptimizationProblem.solve_with_strategy (constSolver ⟨Status.solved, [4], 2, [0]⟩)
        ⟨[1], Arr.v [0], ⟨[[1]], 1⟩, Arr.v [2], []⟩ ⟨[], [0]⟩ :=
  sws_ignores_int_vars_when_continuous (constSolver ⟨Status.solved, [4], 2, [0]⟩)
    ⟨[1], Arr.v [0], ⟨[[1]], 1⟩, Arr.v [2], []⟩ [3] [] [0] rfl
